import Mathlib

/-!
Verification of the Bionabu research-flow controller.

This file gives a shallow embedding of the client-side state machine of the
Bionabu frontend: the `researchReducer` and its action creators from
`src/unnamed/part_001` (the TypeScript `ResearchContext`), together with the
chat-view local state logic of
`src/frontend/src/components/search/ChatInterface.tsx`.

JavaScript objects become Lean structures (an absent/undefined `selected`
field is modelled as `false`, and `null`-able fields as `Option`); the
reducer becomes a pure function `ResearchState → Action → ResearchState`;
each async action creator becomes a pure function from its inputs and the
service outcome (`Except String _`) to the ordered list of dispatched
actions, the list of network calls issued, and the value returned or
re-raised to the caller.
-/

namespace Bionabu

/-- The embedding of JavaScript `String.prototype.trim()`: removes
leading and trailing whitespace from the string.  (Defined over the
character list so that it evaluates by kernel reduction; Lean's own
`String.trim` computes the same value but is stated over byte
positions.) -/
def jsTrim (s : String) : String :=
  ⟨((s.data.dropWhile Char.isWhitespace).reverse.dropWhile Char.isWhitespace).reverse⟩

/-- An article recommendation, from the `Article` interface in
`src/frontend/src/services/api.ts`.  The optional `selected?: boolean`
field is modelled as a `Bool` with `undefined ↦ false`. -/
structure Article where
  id : String
  title : String
  relevance_score : Int
  relevance_reasons : List String
  research_applications : List String
  url : String
  organisms : List String
  key_concepts : List String
  selected : Bool
deriving Repr, DecidableEq

/-- `SuggestedQuestion` from `src/frontend/src/services/api.ts`. -/
structure SuggestedQuestion where
  id : String
  question : String
  type : String
  focus : String
  article_id : String
  article_title : String
deriving Repr, DecidableEq

/-- `ArticleSummary` from `src/frontend/src/services/api.ts`. -/
structure ArticleSummary where
  article_id : String
  summary : String
deriving Repr, DecidableEq

/-- `SummaryResponse` from `src/frontend/src/services/api.ts`. -/
structure SummaryResponse where
  status : String
  step : String
  research_query : String
  article_summaries : List ArticleSummary
  suggested_questions : List SuggestedQuestion
  combined_summary : Option String
deriving Repr, DecidableEq

/-- Message role, for the `'user' | 'assistant'` union. -/
inductive ChatRole
  | user
  | assistant
deriving Repr, DecidableEq

/-- `ChatMessage` from `src/unnamed/part_001`; the optional `timestamp`
is modelled as an `Option Nat` (epoch seconds). -/
structure ChatMessage where
  role : ChatRole
  message : String
  timestamp : Option Nat
deriving Repr, DecidableEq

/-- `ChatResponse` from `src/frontend/src/services/api.ts` (its
`chat_history` entries carry no timestamp; reuse `ChatMessage` with
`timestamp = none` for them). -/
structure ChatResponse where
  response : String
  chat_history : List ChatMessage
  follow_up_questions : List String
deriving Repr, DecidableEq

/-- `SystemStatus` from `src/frontend/src/services/api.ts`. -/
structure SystemStatus where
  status : String
  message : String
  articles_count : Int
  last_updated : String
deriving Repr, DecidableEq

/-- The `ResearchStep` union `'research-query' | 'recommendations' |
'summaries' | 'chat'` from `src/unnamed/part_001`. -/
inductive ResearchStep
  | researchQuery
  | recommendations
  | summaries
  | chat
deriving Repr, DecidableEq

/-- The controller state `ResearchState` from `src/unnamed/part_001`. -/
structure ResearchState where
  currentStep : ResearchStep
  researchQuery : String
  recommendations : List Article
  selectedArticles : List Article
  summaries : Option SummaryResponse
  suggestedQuestions : List SuggestedQuestion
  chatHistory : List ChatMessage
  followUpQuestions : List String
  systemStatus : Option SystemStatus
  isLoading : Bool
  error : Option String
deriving Repr, DecidableEq

/-- The dispatched actions (`ActionTypes` with their payloads) from
`src/unnamed/part_001`. -/
inductive Action
  | setLoading (loading : Bool)
  | setError (error : Option String)
  | setSystemStatus (status : Option SystemStatus)
  | setResearchQuery (query : String)
  | setRecommendations (payload : List Article)
  | selectArticle (articleId : String)
  | deselectArticle (articleId : String)
  | clearSelections
  | setSummaries (payload : SummaryResponse)
  | setSuggestedQuestions (payload : List SuggestedQuestion)
  | addChatMessage (payload : ChatMessage)
  | setChatHistory (payload : List ChatMessage)
  | setFollowUpQuestions (payload : List String)
  | nextStep (step : ResearchStep)
  | resetResearch
deriving Repr, DecidableEq

/-- `initialState` from `src/unnamed/part_001`. -/
def initialState : ResearchState where
  currentStep := .researchQuery
  researchQuery := ""
  recommendations := []
  selectedArticles := []
  summaries := none
  suggestedQuestions := []
  chatHistory := []
  followUpQuestions := []
  systemStatus := none
  isLoading := false
  error := none

/-- `researchReducer` from `src/unnamed/part_001` (lines 68–166).  Each
case is a direct translation of the corresponding `switch` branch; object
spreads become record updates, `Array.prototype.map`/`filter` become
`List.map`/`List.filter`. -/
def researchReducer (state : ResearchState) (action : Action) : ResearchState :=
  match action with
  | .setLoading loading =>
      { state with isLoading := loading, error := none }
  | .setError e =>
      { state with isLoading := false, error := e }
  | .setSystemStatus status =>
      { state with systemStatus := status }
  | .setResearchQuery query =>
      { state with researchQuery := query }
  | .setRecommendations payload =>
      { state with
        recommendations := payload
        selectedArticles := []
        summaries := none
        currentStep := .recommendations
        isLoading := false
        error := none }
  | .selectArticle articleId =>
      let updatedRecommendations := state.recommendations.map fun rec =>
        if rec.id == articleId then { rec with selected := true } else rec
      let updatedSelectedArticles :=
        state.selectedArticles ++ state.recommendations.filter fun rec => rec.id == articleId
      { state with
        recommendations := updatedRecommendations
        selectedArticles := updatedSelectedArticles }
  | .deselectArticle deselectedId =>
      let deselectedRecommendations := state.recommendations.map fun rec =>
        if rec.id == deselectedId then { rec with selected := false } else rec
      let deselectedArticles := state.selectedArticles.filter fun rec => rec.id != deselectedId
      { state with
        recommendations := deselectedRecommendations
        selectedArticles := deselectedArticles }
  | .clearSelections =>
      let clearedRecommendations := state.recommendations.map fun rec =>
        { rec with selected := false }
      { state with
        recommendations := clearedRecommendations
        selectedArticles := [] }
  | .setSummaries payload =>
      { state with
        summaries := some payload
        currentStep := .summaries
        isLoading := false
        error := none }
  | .setSuggestedQuestions payload =>
      { state with suggestedQuestions := payload }
  | .addChatMessage payload =>
      { state with chatHistory := state.chatHistory ++ [payload] }
  | .setChatHistory payload =>
      { state with chatHistory := payload }
  | .setFollowUpQuestions payload =>
      { state with followUpQuestions := payload }
  | .nextStep step =>
      { state with currentStep := step }
  | .resetResearch =>
      { initialState with systemStatus := state.systemStatus }

/-- Applying a list of dispatched actions in order. -/
def dispatchList (state : ResearchState) (actions : List Action) : ResearchState :=
  actions.foldl researchReducer state

/-- The network calls issued through `apiService`
(`src/frontend/src/services/api.ts`), as observed at the controller
boundary. -/
inductive NetCall
  | recommendations (researchQuery : String) (topK : Nat)
  | summaries (selectedArticles : List Article) (researchQuery : String)
  | chat (userQuestion : String) (selectedArticles : List Article)
      (researchQuery : String) (chatHistory : List ChatMessage)
deriving Repr, DecidableEq

/-- Result of running one action creator: the dispatched actions in order,
the network calls issued, and the value returned (or the error re-raised)
to the caller. -/
structure OpRun (α : Type) where
  dispatched : List Action
  calls : List NetCall
  result : Except String α
deriving Repr

/-- `actions.setResearchQuery` from `src/unnamed/part_001` (line 207):
a single dispatch, no network call. -/
def setResearchQueryOp (query : String) : OpRun Unit where
  dispatched := [.setResearchQuery query]
  calls := []
  result := .ok ()

/-- `actions.getRecommendations` from `src/unnamed/part_001`
(lines 209–220): dispatches `SET_LOADING true` and `SET_RESEARCH_QUERY`,
calls the service, then dispatches `SET_RECOMMENDATIONS` on success or
`SET_ERROR` (and re-raises) on failure.  `svc` is the outcome of
`apiService.getRecommendations`. -/
def getRecommendationsOp (query : String) (topK : Nat)
    (svc : Except String (List Article)) : OpRun (List Article) :=
  match svc with
  | .ok recs =>
      { dispatched := [.setLoading true, .setResearchQuery query, .setRecommendations recs]
        calls := [.recommendations query topK]
        result := .ok recs }
  | .error e =>
      { dispatched := [.setLoading true, .setResearchQuery query, .setError (some e)]
        calls := [.recommendations query topK]
        result := .error e }

/-- `actions.getSummaries` from `src/unnamed/part_001` (lines 226–245):
if `!researchQuery || researchQuery.trim().length === 0` it dispatches
`SET_ERROR 'Research query is required'` and throws without touching the
network; otherwise it dispatches `SET_LOADING true`, calls the service,
and dispatches `SET_SUMMARIES` and `SET_SUGGESTED_QUESTIONS` on success or
`SET_ERROR` (re-raising) on failure. -/
def getSummariesOp (selectedArticles : List Article) (researchQuery : String)
    (svc : Except String SummaryResponse) : OpRun SummaryResponse :=
  if researchQuery = "" ∨ (jsTrim researchQuery).length = 0 then
    { dispatched := [.setError (some "Research query is required")]
      calls := []
      result := .error "Research query is required" }
  else
    match svc with
    | .ok response =>
        { dispatched := [.setLoading true, .setSummaries response,
            .setSuggestedQuestions response.suggested_questions]
          calls := [.summaries selectedArticles researchQuery]
          result := .ok response }
    | .error e =>
        { dispatched := [.setLoading true, .setError (some e)]
          calls := [.summaries selectedArticles researchQuery]
          result := .error e }

/-- `actions.sendChatMessage` from `src/unnamed/part_001` (lines 247–265):
calls the service, then dispatches `SET_CHAT_HISTORY`,
`SET_FOLLOW_UP_QUESTIONS` and `NEXT_STEP 'chat'` on success, or
`SET_ERROR` (re-raising) on failure. -/
def sendChatMessageOp (userQuestion : String) (selectedArticles : List Article)
    (researchQuery : String) (chatHistory : List ChatMessage)
    (svc : Except String ChatResponse) : OpRun ChatResponse :=
  match svc with
  | .ok response =>
      { dispatched := [.setChatHistory response.chat_history,
          .setFollowUpQuestions response.follow_up_questions, .nextStep .chat]
        calls := [.chat userQuestion selectedArticles researchQuery chatHistory]
        result := .ok response }
  | .error e =>
      { dispatched := [.setError (some e)]
        calls := [.chat userQuestion selectedArticles researchQuery chatHistory]
        result := .error e }

/-! ### Chat view local state
(`src/frontend/src/components/search/ChatInterface.tsx`) -/

/-- The `LocalMessage` interface of `ChatInterface.tsx`, the shape of the
locally displayed transcript entries.  `follow_up_questions` keeps only
the question texts. -/
structure LocalMessage where
  id : String
  type : ChatRole
  content : String
  timestamp : Nat
  follow_up_questions : List String
  isPending : Bool
deriving Repr, DecidableEq

/-- The optimistic user message built in `handleSubmit` /
`handleQuestionClick` (`id: user-${Date.now()}`, epoch timestamp `now`,
`isPending: false`). -/
def mkUserMsg (now : Nat) (content : String) : LocalMessage where
  id := "user-" ++ toString now
  type := .user
  content := content
  timestamp := now
  follow_up_questions := []
  isPending := false

/-- The local state of `ChatInterface` — the `useState` hooks `message`,
`localError`, `localMessages`, `isWaitingForResponse` and the refs
`previousQueryRef`, `lastChatHistoryLengthRef`,
`initialQuestionProcessedRef`. -/
structure ChatLocal where
  message : String
  localError : Option String
  localMessages : List LocalMessage
  isWaitingForResponse : Bool
  previousQuery : String
  lastChatHistoryLength : Nat
  initialQuestionProcessed : Bool
deriving Repr, DecidableEq

/-- The initial hook values of `ChatInterface`, with `previousQueryRef`
seeded from the `researchQuery` prop. -/
def initialChatLocal (researchQuery : String) : ChatLocal where
  message := ""
  localError := none
  localMessages := []
  isWaitingForResponse := false
  previousQuery := researchQuery
  lastChatHistoryLength := 0
  initialQuestionProcessed := false

/-- `handleSubmit` from `ChatInterface.tsx` (lines 84–111): guarded by
`!message.trim() || isLoading || isWaitingForResponse`; on success trims
the input, clears it, clears the local error, sets the waiting flag,
appends the optimistic user message, and sends the trimmed text (the
returned `Option String` is the question passed to `sendChatMessage`;
`none` means no send was issued). -/
def handleSubmit (c : ChatLocal) (isLoading : Bool) (now : Nat) :
    ChatLocal × Option String :=
  if jsTrim c.message == "" || isLoading || c.isWaitingForResponse then (c, none)
  else
    let userMessage := jsTrim c.message
    ({ c with
        message := ""
        localError := none
        isWaitingForResponse := true
        localMessages := c.localMessages ++ [mkUserMsg now userMessage] },
      some userMessage)

/-- `handleQuestionClick` from `ChatInterface.tsx` (lines 113–136):
guarded by `isLoading || isWaitingForResponse`; on success clears the
local error, sets the waiting flag, appends the optimistic user message,
and sends the clicked question. -/
def handleQuestionClick (c : ChatLocal) (q : String) (isLoading : Bool) (now : Nat) :
    ChatLocal × Option String :=
  if isLoading || c.isWaitingForResponse then (c, none)
  else
    ({ c with
        localError := none
        isWaitingForResponse := true
        localMessages := c.localMessages ++ [mkUserMsg now q] },
      some q)

/-- Conversion applied by the sync effect of `ChatInterface.tsx` to each
confirmed context message (`{ ...msg, isPending: false }`; the context
message's `role`/`message` become the displayed `type`/`content`). -/
def toLocalMessage (m : ChatMessage) : LocalMessage where
  id := ""
  type := m.role
  content := m.message
  timestamp := m.timestamp.getD 0
  follow_up_questions := []
  isPending := false

/-- The first `useEffect` of `ChatInterface.tsx` (lines 39–66): on a
topic change it clears the transcript, the waiting flag, the local error
and both refs; otherwise, when the confirmed history has grown past the
last observed length, it replaces the local list with the confirmed
history, clears the waiting flag and records the new length. -/
def chatSyncEffect (c : ChatLocal) (researchQuery : String)
    (chatHistory : List ChatMessage) : ChatLocal :=
  if c.previousQuery != researchQuery then
    { c with
        localMessages := []
        isWaitingForResponse := false
        previousQuery := researchQuery
        localError := none
        lastChatHistoryLength := 0
        initialQuestionProcessed := false }
  else if c.lastChatHistoryLength < chatHistory.length then
    { c with
        localMessages := chatHistory.map toLocalMessage
        isWaitingForResponse := false
        lastChatHistoryLength := chatHistory.length }
  else c

/-- The initial-question `useEffect` of `ChatInterface.tsx`
(lines 69–76): when `initialQuestion` is truthy (non-null, non-empty) and
the processed ref is unset, it sets the ref, dispatches the question via
`handleQuestionClick`, and calls `onQuestionSent`.  Returns the updated
local state, the question actually sent (if any), and whether
`onQuestionSent` was signalled. -/
def initialQuestionEffect (c : ChatLocal) (initialQuestion : Option String)
    (isLoading : Bool) (now : Nat) : ChatLocal × Option String × Bool :=
  match initialQuestion with
  | none => (c, none, false)
  | some q =>
    if q != "" && !c.initialQuestionProcessed then
      let c1 := { c with initialQuestionProcessed := true }
      let r := handleQuestionClick c1 q isLoading now
      (r.1, r.2, true)
    else (c, none, false)

/-- The environment events the chat view reacts to: a form submission, a
suggested/follow-up question click, typing in the input, a run of the
sync `useEffect` (triggered by any render whose `chatHistory` or
`researchQuery` inputs changed), the resolution of a pending
`chatWithArticles` request (its state effects surface through a later
sync-effect run once the context history has grown), a failed send (the
`catch` branches of `handleSubmit` / `handleQuestionClick`), and an
unmount/remount of the view (closing and reopening the chat panel in
`ArticleSummaries.tsx`, or leaving the summaries step via
`nextStep('recommendations')` and returning): the local hook state is
re-created fresh while pending axios requests are never cancelled
(`api.ts` configures no cancellation). -/
inductive ChatAppEvent
  | formSubmit (isLoading : Bool) (now : Nat)
  | questionClick (q : String) (isLoading : Bool) (now : Nat)
  | typeMessage (text : String)
  | syncEffect (researchQuery : String) (chatHistory : List ChatMessage)
  | requestResolves
  | sendFails
  | unmountRemount (researchQuery : String)
deriving Repr, DecidableEq

/-- One step of the chat view against its environment; the `Nat`
component counts the `chatWithArticles` requests currently in flight
(incremented when a send is issued, decremented when a request resolves
or fails — and left untouched by an unmount/remount, since nothing
cancels a pending request). -/
def chatAppStep (p : ChatLocal × Nat) (e : ChatAppEvent) : ChatLocal × Nat :=
  match e with
  | .formSubmit l t =>
      let r := handleSubmit p.1 l t
      (r.1, if r.2.isSome then p.2 + 1 else p.2)
  | .questionClick q l t =>
      let r := handleQuestionClick p.1 q l t
      (r.1, if r.2.isSome then p.2 + 1 else p.2)
  | .typeMessage text => ({ p.1 with message := text }, p.2)
  | .syncEffect rq h => (chatSyncEffect p.1 rq h, p.2)
  | .requestResolves => (p.1, p.2 - 1)
  | .sendFails =>
      ({ p.1 with
          localError := some "Failed to send message. Please try again."
          isWaitingForResponse := false }, p.2 - 1)
  | .unmountRemount rq => (initialChatLocal rq, p.2)

/-- Running the chat view from a fresh mount over a list of environment
events, starting with no request in flight. -/
def chatAppTrace (researchQuery : String) (events : List ChatAppEvent) : ChatLocal × Nat :=
  events.foldl chatAppStep (initialChatLocal researchQuery, 0)

/-- Concrete article used by the concrete-state theorems below. -/
def articleA : Article where
  id := "a1"
  title := "Microgravity plant growth"
  relevance_score := 9
  relevance_reasons := ["direct match"]
  research_applications := ["agriculture"]
  url := "https://example.org/a1"
  organisms := ["Arabidopsis"]
  key_concepts := ["microgravity"]
  selected := false

/-- State after receiving `[articleA]` as recommendations. -/
def stateRecA : ResearchState :=
  researchReducer initialState (.setRecommendations [articleA])

/-- State after additionally selecting `articleA`. -/
def stateSelA : ResearchState :=
  researchReducer stateRecA (.selectArticle "a1")

/-- State reached by applying `SELECT_ARTICLE "a1"` twice after
receiving `[articleA]`. -/
def badSelectionState : ResearchState :=
  dispatchList initialState
    [.setRecommendations [articleA], .selectArticle "a1", .selectArticle "a1"]

/-- The selection-set invariant claimed by the spec: ids in
`selectedArticles` occur exactly once, each corresponds to a
recommendation whose `selected` flag is set, and conversely every
recommendation with the flag set has its id in `selectedArticles`. -/
def selectionInvariant (s : ResearchState) : Prop :=
  (s.selectedArticles.map Article.id).Nodup ∧
  (∀ x ∈ s.selectedArticles, ∃ r ∈ s.recommendations, r.id = x.id ∧ r.selected = true) ∧
  (∀ r ∈ s.recommendations, r.selected = true → ∃ x ∈ s.selectedArticles, x.id = r.id)

/-- Distinctness of the recommendation ids (the spec's "identifier
(unique string)" assumption on articles). -/
def recIdsNodup (s : ResearchState) : Prop :=
  (s.recommendations.map Article.id).Nodup

/-- Chat local state after the initial question `"Q1"` has been
consumed. -/
def chatAfterQ1 : ChatLocal :=
  (initialQuestionEffect (initialChatLocal "topic") (some "Q1") false 1).1

/-- Chat local state after the caller has acknowledged consumption of
`"Q1"` (the `initialQuestion` prop is back to `null` and the effect has
re-run). -/
def chatAfterQ1Cleared : ChatLocal :=
  (initialQuestionEffect chatAfterQ1 none false 2).1

/-- Chat local state after the service answered `"Q1"`: the context
history grew to two messages and the sync effect ran (clearing the
waiting flag, leaving the processed ref set). -/
def chatAfterQ1Answered : ChatLocal :=
  chatSyncEffect chatAfterQ1Cleared "topic"
    [⟨.user, "Q1", none⟩, ⟨.assistant, "A1", none⟩]

/-! ### Helper lemmas -/

attribute [ext] ResearchState

theorem map_eq_self_of_mem {α : Type} {l : List α} {f : α → α}
    (h : ∀ a ∈ l, f a = a) : l.map f = l := by
  induction l with
  | nil => rfl
  | cons x xs ih =>
    simp only [List.map_cons]
    rw [h x (List.mem_cons_self x xs), ih fun a ha => h a (List.mem_cons_of_mem x ha)]

theorem string_eq_empty_of_length_eq_zero {s : String} (h : s.length = 0) : s = "" := by
  obtain ⟨d⟩ := s
  simp only [String.length] at h
  have hd : d = [] := List.length_eq_zero.mp h
  subst hd
  rfl

/-! ### Claim theorems -/

/-- C8: from every controller state, `RESET_RESEARCH` returns the
controller to the initial state — step `research-query`, empty query,
empty recommendations and selection set, no summaries, empty suggested
questions, chat history and follow-up questions, loading `false`, error
cleared — while `systemStatus` is preserved exactly unchanged. -/
theorem resetFlow_restores_initial (s : ResearchState) :
    researchReducer s .resetResearch = { initialState with systemStatus := s.systemStatus } ∧
    (researchReducer s .resetResearch).currentStep = .researchQuery ∧
    (researchReducer s .resetResearch).researchQuery = "" ∧
    (researchReducer s .resetResearch).recommendations = [] ∧
    (researchReducer s .resetResearch).selectedArticles = [] ∧
    (researchReducer s .resetResearch).summaries = none ∧
    (researchReducer s .resetResearch).suggestedQuestions = [] ∧
    (researchReducer s .resetResearch).chatHistory = [] ∧
    (researchReducer s .resetResearch).followUpQuestions = [] ∧
    (researchReducer s .resetResearch).isLoading = false ∧
    (researchReducer s .resetResearch).error = none ∧
    (researchReducer s .resetResearch).systemStatus = s.systemStatus :=
  ⟨rfl, rfl, rfl, rfl, rfl, rfl, rfl, rfl, rfl, rfl, rfl, rfl⟩

/-- C10 (counterexample): `setResearchQuery` stores its argument
verbatim, not trimmed — on input `"  microgravity  "` the stored query
keeps its surrounding whitespace, so it differs from the trimmed
value. -/
theorem setQuery_stores_untrimmed :
    (dispatchList initialState
        (setResearchQueryOp "  microgravity  ").dispatched).researchQuery
      = "  microgravity  " ∧
    (dispatchList initialState
        (setResearchQueryOp "  microgravity  ").dispatched).researchQuery
      ≠ jsTrim "  microgravity  " := by
  decide

/-- C10 (amended): `setResearchQuery text` stores `text` exactly as
given (no trimming), performs no network call, and changes no other
state field. -/
theorem setQuery_stores_verbatim (s : ResearchState) (text : String) :
    (setResearchQueryOp text).calls = [] ∧
    dispatchList s (setResearchQueryOp text).dispatched = { s with researchQuery := text } :=
  ⟨rfl, rfl⟩

/-- C4: for every `selectedArticles` argument and every query that trims
to the empty string, `getSummaries` fails with the validation error
`'Research query is required'`, issues no network call, dispatches only
`SET_ERROR` (in particular it never dispatches `SET_LOADING true`), and
leaves the state with the loading flag `false` and the error stored. -/
theorem getSummaries_validation_no_network (arts : List Article) (q : String)
    (svc : Except String SummaryResponse) (s : ResearchState)
    (hq : jsTrim q = "") :
    (getSummariesOp arts q svc).calls = [] ∧
    (getSummariesOp arts q svc).result = .error "Research query is required" ∧
    (getSummariesOp arts q svc).dispatched = [.setError (some "Research query is required")] ∧
    Action.setLoading true ∉ (getSummariesOp arts q svc).dispatched ∧
    dispatchList s (getSummariesOp arts q svc).dispatched =
      { s with isLoading := false, error := some "Research query is required" } := by
  have hc : q = "" ∨ (jsTrim q).length = 0 := Or.inr (by rw [hq]; rfl)
  simp [getSummariesOp, if_pos hc, dispatchList, researchReducer]

/-- C4 witness: the validation failure at the concrete whitespace-only
query `"   "`. -/
theorem getSummaries_validation_no_network_witness :
    (getSummariesOp [] "   " (Except.error "srv")).calls = [] ∧
    (getSummariesOp [] "   " (Except.error "srv")).result =
      .error "Research query is required" :=
  have h := getSummaries_validation_no_network [] "   " (Except.error "srv")
    initialState (by decide)
  ⟨h.1, h.2.1⟩

/-- C6: for each network-backed operation (`getRecommendations`,
`getSummaries` past validation, `sendChatMessage`), a failing service
call leaves the controller with the loading flag cleared, the failure
message stored in `error`, the current step unchanged, and the error
re-raised to the caller. -/
theorem network_failure_recovery (s : ResearchState) (q : String) (k : Nat)
    (arts : List Article) (hist : List ChatMessage) (question e : String)
    (hq : jsTrim q ≠ "") :
    (getRecommendationsOp q k (.error e)).result = .error e ∧
    dispatchList s (getRecommendationsOp q k (.error e)).dispatched =
      { s with researchQuery := q, isLoading := false, error := some e } ∧
    (dispatchList s (getRecommendationsOp q k (.error e)).dispatched).currentStep
      = s.currentStep ∧
    (getSummariesOp arts q (.error e)).result = .error e ∧
    dispatchList s (getSummariesOp arts q (.error e)).dispatched =
      { s with isLoading := false, error := some e } ∧
    (dispatchList s (getSummariesOp arts q (.error e)).dispatched).currentStep
      = s.currentStep ∧
    (sendChatMessageOp question arts q hist (.error e)).result = .error e ∧
    dispatchList s (sendChatMessageOp question arts q hist (.error e)).dispatched =
      { s with isLoading := false, error := some e } ∧
    (dispatchList s (sendChatMessageOp question arts q hist (.error e)).dispatched).currentStep
      = s.currentStep := by
  have hc : ¬(q = "" ∨ (jsTrim q).length = 0) := by
    rintro (rfl | h)
    · exact hq rfl
    · exact hq (string_eq_empty_of_length_eq_zero h)
  simp [getRecommendationsOp, getSummariesOp, sendChatMessageOp, if_neg hc,
    dispatchList, researchReducer]

/-- C6 witness: the failure shape at concrete inputs. -/
theorem network_failure_recovery_witness :
    (getRecommendationsOp "microgravity" 5 (.error "boom")).result = .error "boom" ∧
    dispatchList initialState (getSummariesOp [articleA] "microgravity"
        (.error "boom")).dispatched =
      { initialState with isLoading := false, error := some "boom" } :=
  have h := network_failure_recovery initialState "microgravity" 5 [articleA] []
    "why" "boom" (by decide)
  ⟨h.1, h.2.2.2.2.1⟩

/-- C5 (counterexample): a successful `getRecommendations` stores the
service payload verbatim — it does not initialize the `selected` flags —
so a payload containing an article with `selected = true` yields a
recommendation list that is not all-unselected. -/
theorem setRecommendations_selected_flag_violation :
    ¬ (∀ a ∈ (dispatchList initialState
        (getRecommendationsOp "microgravity" 5
          (.ok [{ articleA with selected := true }])).dispatched).recommendations,
        a.selected = false) := by
  decide

/-- C5 (amended): a successful `getRecommendations(Q)` stores the
service's articles verbatim as the recommendation list (so all elements
have `selected = false` whenever the service supplies them unselected),
empties the selection set, clears prior summaries, sets the step to
`recommendations`, leaves the loading flag `false` and the error
cleared, and returns the payload. -/
theorem getRecommendations_success (s : ResearchState) (q : String) (k : Nat)
    (payload : List Article) (hsel : ∀ a ∈ payload, a.selected = false) :
    (getRecommendationsOp q k (.ok payload)).calls = [.recommendations q k] ∧
    (getRecommendationsOp q k (.ok payload)).result = .ok payload ∧
    dispatchList s (getRecommendationsOp q k (.ok payload)).dispatched =
      { s with
        researchQuery := q
        recommendations := payload
        selectedArticles := []
        summaries := none
        currentStep := .recommendations
        isLoading := false
        error := none } ∧
    ∀ a ∈ (dispatchList s (getRecommendationsOp q k (.ok payload)).dispatched).recommendations,
      a.selected = false := by
  refine ⟨rfl, rfl, rfl, ?_⟩
  exact hsel

/-- C5 witness: the success shape at a concrete unselected payload. -/
theorem getRecommendations_success_witness :
    (dispatchList initialState (getRecommendationsOp "microgravity" 5
        (.ok [articleA])).dispatched).currentStep = .recommendations ∧
    (dispatchList initialState (getRecommendationsOp "microgravity" 5
        (.ok [articleA])).dispatched).selectedArticles = [] :=
  have h := getRecommendations_success initialState "microgravity" 5 [articleA]
    (by decide)
  by rw [h.2.2.1]; exact ⟨rfl, rfl⟩

/-- C2 (counterexample): `selectArticle` is not idempotent — applying
`SELECT_ARTICLE "a1"` twice from the state that received `[articleA]`
appends the article to `selectedArticles` a second time, so the state
differs from a single application. -/
theorem selectArticle_not_idempotent :
    researchReducer (researchReducer stateRecA (.selectArticle "a1")) (.selectArticle "a1")
      ≠ researchReducer stateRecA (.selectArticle "a1") := by
  decide

/-- C2 (amended): `selectArticle` applied twice agrees with a single
application on the recommendations list (but not on `selectedArticles`,
which receives a duplicate — see the counterexample); `deselectArticle`
is idempotent on the whole state; selecting an id absent from the
recommendations is a no-op; and deselecting an article that is not
selected (flag clear and id absent from the selection set) is a
no-op. -/
theorem select_deselect_idempotence (s : ResearchState) (i : String) :
    (researchReducer (researchReducer s (.selectArticle i)) (.selectArticle i)).recommendations
      = (researchReducer s (.selectArticle i)).recommendations ∧
    researchReducer (researchReducer s (.deselectArticle i)) (.deselectArticle i)
      = researchReducer s (.deselectArticle i) ∧
    ((∀ r ∈ s.recommendations, r.id ≠ i) → researchReducer s (.selectArticle i) = s) ∧
    ((∀ r ∈ s.recommendations, r.id = i → r.selected = false) →
      (∀ x ∈ s.selectedArticles, x.id ≠ i) →
      researchReducer s (.deselectArticle i) = s) := by
  refine ⟨?_, ?_, ?_, ?_⟩
  · simp only [researchReducer, List.map_map]
    apply List.map_congr_left
    intro r _
    by_cases h : r.id = i <;> simp [Function.comp, h]
  · have hmap : ∀ l : List Article,
        (l.map fun rec => if rec.id == i then { rec with selected := false } else rec).map
            (fun rec => if rec.id == i then { rec with selected := false } else rec)
          = l.map fun rec => if rec.id == i then { rec with selected := false } else rec := by
      intro l
      rw [List.map_map]
      apply List.map_congr_left
      intro r _
      by_cases h : r.id = i <;> simp [Function.comp, h]
    have hfil : ∀ l : List Article,
        (l.filter fun rec => rec.id != i).filter (fun rec => rec.id != i)
          = l.filter fun rec => rec.id != i := by
      intro l
      exact List.filter_eq_self.mpr fun x hx => (List.mem_filter.mp hx).2
    simp only [researchReducer]
    rw [hmap, hfil]
  · intro h
    have h1 : (s.recommendations.map fun rec =>
        if rec.id == i then { rec with selected := true } else rec) = s.recommendations := by
      apply map_eq_self_of_mem
      intro r hr
      have : ¬(r.id = i) := h r hr
      simp [this]
    have h2 : (s.recommendations.filter fun rec => rec.id == i) = [] := by
      rw [List.filter_eq_nil_iff]
      intro r hr
      simp [h r hr]
    simp only [researchReducer]
    rw [h1, h2, List.append_nil]
  · intro hrec hsel
    have h1 : (s.recommendations.map fun rec =>
        if rec.id == i then { rec with selected := false } else rec) = s.recommendations := by
      apply map_eq_self_of_mem
      intro r hr
      by_cases h : r.id = i
      · have hs : r.selected = false := hrec r hr h
        obtain ⟨ri, rt, rs, rr, ra, ru, ro, rk, rsel⟩ := r
        simp only at hs
        subst hs
        simp [h]
      · simp [h]
    have h2 : (s.selectedArticles.filter fun rec => rec.id != i) = s.selectedArticles := by
      apply List.filter_eq_self.mpr
      intro x hx
      simpa using hsel x hx
    simp only [researchReducer]
    rw [h1, h2]

/-- C2 witness: the amended statement applied at the concrete state
`stateRecA` and id `"zzz"` (absent), discharging the hypotheses. -/
theorem select_deselect_idempotence_witness :
    researchReducer stateRecA (.selectArticle "zzz") = stateRecA ∧
    researchReducer stateRecA (.deselectArticle "zzz") = stateRecA :=
  ⟨(select_deselect_idempotence stateRecA "zzz").2.2.1 (by decide),
   (select_deselect_idempotence stateRecA "zzz").2.2.2 (by decide) (by decide)⟩

/-- C3 (counterexample): from the reachable state in which `articleA`
is already selected, `selectArticle "a1"` followed by
`deselectArticle "a1"` empties the selection set instead of returning it
to its pre-call value `[articleA]`. -/
theorem select_deselect_roundtrip_violation :
    (∃ a ∈ stateSelA.recommendations, a.id = "a1") ∧
    (researchReducer (researchReducer stateSelA (.selectArticle "a1"))
        (.deselectArticle "a1")).selectedArticles ≠ stateSelA.selectedArticles := by
  decide

/-- C3 (amended): for every article `a` in the recommendation list whose
id is not already present in the selection set, `selectArticle a.id`
followed by `deselectArticle a.id` returns `selectedArticles` to exactly
its pre-call value. -/
theorem select_deselect_roundtrip (s : ResearchState) (a : Article)
    (_ha : a ∈ s.recommendations) (hsel : ∀ x ∈ s.selectedArticles, x.id ≠ a.id) :
    (researchReducer (researchReducer s (.selectArticle a.id))
        (.deselectArticle a.id)).selectedArticles = s.selectedArticles := by
  simp only [researchReducer]
  rw [List.filter_append]
  have h1 : (s.selectedArticles.filter fun rec => rec.id != a.id) = s.selectedArticles := by
    apply List.filter_eq_self.mpr
    intro x hx
    simpa using hsel x hx
  have h2 : ((s.recommendations.filter fun rec => rec.id == a.id).filter
      fun rec => rec.id != a.id) = [] := by
    rw [List.filter_eq_nil_iff]
    intro x hx
    have hxa : x.id = a.id := by simpa using List.of_mem_filter hx
    simp [hxa]
  rw [h1, h2, List.append_nil]

/-- C3 witness: the round trip at the concrete state `stateRecA` (the
article is present and not yet selected). -/
theorem select_deselect_roundtrip_witness :
    (researchReducer (researchReducer stateRecA (.selectArticle articleA.id))
        (.deselectArticle articleA.id)).selectedArticles = stateRecA.selectedArticles :=
  select_deselect_roundtrip stateRecA articleA (by decide) (by decide)

/-- C1 (counterexample): the selection-set invariant is not preserved by
arbitrary operation sequences — the reachable state obtained by
dispatching `SET_RECOMMENDATIONS [articleA]` and then
`SELECT_ARTICLE "a1"` twice holds the article's id twice in
`selectedArticles`, violating the "appears exactly once" clause. -/
theorem selection_invariant_violation :
    ¬ selectionInvariant badSelectionState := by
  intro h
  exact absurd h.1 (by decide)

/-- C1 (amended): the selection-set invariant (ids in `selectedArticles`
occur exactly once and coincide with the recommendations whose
`selected` flag is set) holds initially and is preserved by
`SET_RECOMMENDATIONS` with a payload of distinct, unselected articles,
by `SELECT_ARTICLE` on ids whose recommendation entry is not already
selected (the UI toggle only selects unselected articles), by
`DESELECT_ARTICLE` on any id, and by `CLEAR_SELECTIONS`; distinctness of
recommendation ids is preserved as well.  (Without the select guard the
invariant fails — see the counterexample.) -/
theorem selection_invariant_preserved (s : ResearchState)
    (hinv : selectionInvariant s) (hrec : recIdsNodup s) :
    selectionInvariant initialState ∧
    (∀ payload : List Article, (payload.map Article.id).Nodup →
      (∀ a ∈ payload, a.selected = false) →
      selectionInvariant (researchReducer s (.setRecommendations payload)) ∧
      recIdsNodup (researchReducer s (.setRecommendations payload))) ∧
    (∀ i : String, (∀ r ∈ s.recommendations, r.id = i → r.selected = false) →
      selectionInvariant (researchReducer s (.selectArticle i)) ∧
      recIdsNodup (researchReducer s (.selectArticle i))) ∧
    (∀ i : String,
      selectionInvariant (researchReducer s (.deselectArticle i)) ∧
      recIdsNodup (researchReducer s (.deselectArticle i))) ∧
    (selectionInvariant (researchReducer s .clearSelections) ∧
      recIdsNodup (researchReducer s .clearSelections)) := by
  obtain ⟨hnd, hfwd, hbwd⟩ := hinv
  refine ⟨by unfold selectionInvariant; decide, ?_, ?_, ?_, ?_⟩
  · -- SET_RECOMMENDATIONS with clean payload
    intro payload hpn hpu
    refine ⟨⟨by simp [researchReducer], by simp [researchReducer], ?_⟩, ?_⟩
    · intro r hr hsel
      simp only [researchReducer] at hr
      exact absurd hsel (by simp [hpu r hr])
    · simpa [recIdsNodup, researchReducer] using hpn
  · -- SELECT_ARTICLE under the unselected guard
    intro i hg
    simp only [selectionInvariant, recIdsNodup, researchReducer]
    have hfid : ∀ r : Article,
        (if r.id == i then { r with selected := true } else r).id = r.id := by
      intro r
      by_cases h : r.id = i <;> simp [h]
    refine ⟨⟨?_, ?_, ?_⟩, ?_⟩
    · -- ids of the extended selection list are distinct
      rw [List.map_append, List.nodup_append]
      refine ⟨hnd, ?_, ?_⟩
      · exact List.Nodup.sublist
          (List.Sublist.map Article.id (List.filter_sublist _)) hrec
      · intro a hasel hafil
        obtain ⟨x, hx, rfl⟩ := List.mem_map.mp hasel
        obtain ⟨m, hm, hmx⟩ := List.mem_map.mp hafil
        have hmi : m.id = i := by simpa using (List.mem_filter.mp hm).2
        obtain ⟨r, hr, hrid, hrsel⟩ := hfwd x hx
        have hri : r.selected = false := hg r hr (by rw [hrid, ← hmx, hmi])
        rw [hrsel] at hri
        exact Bool.noConfusion hri
    · -- every selected entry points at a flagged recommendation
      intro x hx
      rcases List.mem_append.mp hx with hx | hx
      · obtain ⟨r, hr, hrid, hrsel⟩ := hfwd x hx
        refine ⟨if r.id == i then { r with selected := true } else r,
          List.mem_map_of_mem _ hr, ?_, ?_⟩
        · rw [hfid r, hrid]
        · by_cases h : r.id = i <;> simp [h, hrsel]
      · have hxr : x ∈ s.recommendations := List.mem_of_mem_filter hx
        have hxi : x.id = i := by simpa using (List.mem_filter.mp hx).2
        refine ⟨if x.id == i then { x with selected := true } else x,
          List.mem_map_of_mem _ hxr, ?_, ?_⟩
        · rw [hfid x]
        · simp [hxi]
    · -- every flagged recommendation is in the selection list
      intro r' hr' hsel'
      obtain ⟨r, hr, rfl⟩ := List.mem_map.mp hr'
      by_cases h : r.id = i
      · refine ⟨r, List.mem_append.mpr (Or.inr (List.mem_filter.mpr ⟨hr, by simp [h]⟩)), ?_⟩
        rw [hfid r]
      · have hrs : r.selected = true := by simpa [h] using hsel'
        obtain ⟨x, hx, hxid⟩ := hbwd r hr hrs
        exact ⟨x, List.mem_append.mpr (Or.inl hx), by rw [hfid r, hxid]⟩
    · -- recommendation ids unchanged
      rw [List.map_map]
      have : Article.id ∘ (fun r : Article =>
          if r.id == i then { r with selected := true } else r) = Article.id :=
        funext hfid
      rw [this]
      exact hrec
  · -- DESELECT_ARTICLE, unguarded
    intro i
    simp only [selectionInvariant, recIdsNodup, researchReducer]
    have hgid : ∀ r : Article,
        (if r.id == i then { r with selected := false } else r).id = r.id := by
      intro r
      by_cases h : r.id = i <;> simp [h]
    refine ⟨⟨?_, ?_, ?_⟩, ?_⟩
    · exact List.Nodup.sublist
        (List.Sublist.map Article.id (List.filter_sublist _)) hnd
    · intro x hx
      have hxs : x ∈ s.selectedArticles := List.mem_of_mem_filter hx
      have hxi : x.id ≠ i := by simpa using (List.mem_filter.mp hx).2
      obtain ⟨r, hr, hrid, hrsel⟩ := hfwd x hxs
      have hri : ¬(r.id = i) := by rw [hrid]; exact hxi
      refine ⟨if r.id == i then { r with selected := false } else r,
        List.mem_map_of_mem _ hr, ?_, ?_⟩
      · rw [hgid r, hrid]
      · simp [hri, hrsel]
    · intro r' hr' hsel'
      obtain ⟨r, hr, rfl⟩ := List.mem_map.mp hr'
      by_cases h : r.id = i
      · exact absurd hsel' (by simp [h])
      · have hrs : r.selected = true := by simpa [h] using hsel'
        obtain ⟨x, hx, hxid⟩ := hbwd r hr hrs
        refine ⟨x, List.mem_filter.mpr ⟨hx, by simp [hxid, h]⟩, ?_⟩
        rw [hgid r, hxid]
    · rw [List.map_map]
      have : Article.id ∘ (fun r : Article =>
          if r.id == i then { r with selected := false } else r) = Article.id :=
        funext hgid
      rw [this]
      exact hrec
  · -- CLEAR_SELECTIONS
    simp only [selectionInvariant, recIdsNodup, researchReducer]
    refine ⟨⟨by simp, by simp, ?_⟩, ?_⟩
    · intro r' hr' hsel'
      obtain ⟨r, _, rfl⟩ := List.mem_map.mp hr'
      exact absurd hsel' (by simp)
    · rw [List.map_map]
      have : Article.id ∘ (fun r : Article => { r with selected := false }) = Article.id :=
        funext fun r => rfl
      rw [this]
      exact hrec

/-- C1 witness: the preservation theorem applied at `stateRecA`, whose
hypotheses hold concretely; a guarded select of `"a1"` keeps the
invariant. -/
theorem selection_invariant_preserved_witness :
    selectionInvariant (researchReducer stateRecA (.selectArticle "a1")) :=
  ((selection_invariant_preserved stateRecA
      ⟨by decide, by decide, by decide⟩
      (by unfold recIdsNodup; decide)).2.2.1 "a1" (by decide)).1

/-- C7 (counterexample): "at most one question is ever in flight" fails.
From a fresh mount, clicking `"Q1"` puts one request in flight and sets
the waiting flag; unmounting and remounting the view (closing/reopening
the chat panel, or going back to the recommendations step and returning)
re-creates the local state with the waiting flag clear while the pending
request is not cancelled; clicking `"Q2"` then puts a second request in
flight concurrently. -/
theorem chat_single_flight_violation :
    (chatAppTrace "topic" [.questionClick "Q1" false 1]).1.isWaitingForResponse = true ∧
    (chatAppTrace "topic" [.questionClick "Q1" false 1]).2 = 1 ∧
    (chatAppTrace "topic"
        [.questionClick "Q1" false 1, .unmountRemount "topic"]).1.isWaitingForResponse
      = false ∧
    (chatAppTrace "topic" [.questionClick "Q1" false 1, .unmountRemount "topic"]).2 = 1 ∧
    (chatAppTrace "topic" [.questionClick "Q1" false 1, .unmountRemount "topic",
        .questionClick "Q2" false 2]).2 = 2 := by
  decide

/-- C7 (amended): while the chat view is waiting for a response, a form
submission and a suggested/follow-up question click are both no-ops —
the local state is unchanged, no optimistic message is appended, no
network call is issued, and the in-flight count does not change; and a
send is only ever issued from a view whose waiting flag is clear, and
sets the flag.  This is the view's only concurrency guard: it bounds the
sends of one mounted view while waiting, but it does not bound the
questions in flight across the app — an unmount/remount clears the flag
without cancelling the pending request, after which a new send puts a
second question in flight (see the counterexample). -/
theorem chat_waiting_send_noop (c : ChatLocal) (q : String) (l : Bool) (t : Nat)
    (h : c.isWaitingForResponse = true) :
    handleSubmit c l t = (c, none) ∧
    handleQuestionClick c q l t = (c, none) ∧
    (∀ n : Nat, chatAppStep (c, n) (.formSubmit l t) = (c, n) ∧
      chatAppStep (c, n) (.questionClick q l t) = (c, n)) ∧
    (∀ (p : ChatLocal × Nat) (l' : Bool) (t' : Nat),
      (chatAppStep p (.formSubmit l' t')).2 ≠ p.2 →
      p.1.isWaitingForResponse = false ∧
      (chatAppStep p (.formSubmit l' t')).1.isWaitingForResponse = true) ∧
    (∀ (p : ChatLocal × Nat) (q' : String) (l' : Bool) (t' : Nat),
      (chatAppStep p (.questionClick q' l' t')).2 ≠ p.2 →
      p.1.isWaitingForResponse = false ∧
      (chatAppStep p (.questionClick q' l' t')).1.isWaitingForResponse = true) := by
  refine ⟨?_, ?_, ?_, ?_, ?_⟩
  · simp [handleSubmit, h]
  · simp [handleQuestionClick, h]
  · intro n
    constructor
    · simp [chatAppStep, handleSubmit, h]
    · simp [chatAppStep, handleQuestionClick, h]
  · intro p l' t' hn
    by_cases hc : (jsTrim p.1.message == "" || l' || p.1.isWaitingForResponse) = true
    · simp [chatAppStep, handleSubmit, hc] at hn
    · have hw : p.1.isWaitingForResponse = false := by
        cases hv : p.1.isWaitingForResponse
        · rfl
        · exact absurd (by simp [hv]) hc
      exact ⟨hw, by simp [chatAppStep, handleSubmit, hc]⟩
  · intro p q' l' t' hn
    by_cases hc : (l' || p.1.isWaitingForResponse) = true
    · simp [chatAppStep, handleQuestionClick, hc] at hn
    · have hw : p.1.isWaitingForResponse = false := by
        cases hv : p.1.isWaitingForResponse
        · rfl
        · exact absurd (by simp [hv]) hc
      exact ⟨hw, by simp [chatAppStep, handleQuestionClick, hc]⟩

/-- C7 witness: the no-op at a concrete waiting state. -/
theorem chat_waiting_send_noop_witness :
    handleSubmit { initialChatLocal "topic" with isWaitingForResponse := true } false 7 =
      ({ initialChatLocal "topic" with isWaitingForResponse := true }, none) :=
  (chat_waiting_send_noop { initialChatLocal "topic" with isWaitingForResponse := true }
    "Q" false 7 rfl).1

/-- C9 (counterexample): after the first initial question `"Q1"` has
been consumed and acknowledged (prop back to `null`), offering a
distinct initial question `"Q2"` within the same topic dispatches
nothing — the processed ref is only reset on a topic change, so the
second value is dropped rather than "likewise dispatched once". -/
theorem initial_question_second_value_dropped :
    (initialQuestionEffect (initialChatLocal "topic") (some "Q1") false 1).2.1 = some "Q1" ∧
    chatAfterQ1Answered.previousQuery = "topic" ∧
    chatAfterQ1Answered.isWaitingForResponse = false ∧
    (initialQuestionEffect chatAfterQ1Answered (some "Q2") false 3).2.1 = none ∧
    (initialQuestionEffect chatAfterQ1Answered (some "Q2") false 3).2.2 = false ∧
    ("Q2" : String) ≠ "Q1" := by
  decide

/-- C9 (amended): while the processed ref is unset and the component is
neither loading nor waiting, a non-empty initial question is dispatched
exactly as a question click and the caller is signalled, with the ref
set; once the ref is set, any further initial-question value — the same
or a distinct one — is not dispatched and the caller is not signalled,
until a topic change (which resets the ref in the sync effect). -/
theorem initial_question_consumed_once (c : ChatLocal) (q : String) (l : Bool) (t : Nat)
    (hp : c.initialQuestionProcessed = false) (hq : q ≠ "")
    (hl : l = false) (hw : c.isWaitingForResponse = false) :
    (initialQuestionEffect c (some q) l t).2.1 = some q ∧
    (initialQuestionEffect c (some q) l t).2.2 = true ∧
    (initialQuestionEffect c (some q) l t).1.initialQuestionProcessed = true ∧
    (initialQuestionEffect c (some q) l t).1
      = (handleQuestionClick { c with initialQuestionProcessed := true } q l t).1 ∧
    (∀ c2 : ChatLocal, c2.initialQuestionProcessed = true →
      ∀ (v : String) (lo : Bool) (t2 : Nat),
        initialQuestionEffect c2 (some v) lo t2 = (c2, none, false)) ∧
    (∀ (rq : String) (hist : List ChatMessage), c.previousQuery ≠ rq →
      (chatSyncEffect c rq hist).initialQuestionProcessed = false) := by
  refine ⟨?_, ?_, ?_, ?_, ?_, ?_⟩
  · simp [initialQuestionEffect, handleQuestionClick, hp, hq, hl, hw]
  · simp [initialQuestionEffect, hp, hq]
  · simp [initialQuestionEffect, handleQuestionClick, hp, hq, hl, hw]
  · simp [initialQuestionEffect, hp, hq]
  · intro c2 h2 v lo t2
    simp [initialQuestionEffect, h2]
  · intro rq hist hne
    simp [chatSyncEffect, bne_iff_ne, hne]

/-- C9 witness: the first initial question at the concrete fresh chat
state is dispatched. -/
theorem initial_question_consumed_once_witness :
    (initialQuestionEffect (initialChatLocal "topic") (some "Q1") false 1).2.1 = some "Q1" ∧
    (initialQuestionEffect (initialChatLocal "topic") (some "Q1") false 1).2.2 = true :=
  have h := initial_question_consumed_once (initialChatLocal "topic") "Q1" false 1
    rfl (by decide) rfl rfl
  ⟨h.1, h.2.1⟩

end Bionabu
